import Mathlib

/-!
Verification of the list-item layout core (`components/layout/list_item.rs`).

The development shallowly embeds the data model and the operations of
`ListItemFlow` and `ListStyleTypeContent`.  External collaborators of the
excerpt (the generic block layout in `block.rs`, fragment geometry in
`fragment.rs`, line metrics in `inline.rs`, the float subsystem and the
display-list subsystem) are modelled either as abstract operation records
(`Ops`) or, where the spec fixes their behaviour, as concrete definitions
marked `Modelled from the spec`.

App units (`Au`) are modelled as unbounded integers; app-unit overflow is
outside the scope of the verified properties.
-/

namespace Servo

/-- App units, the fixed-point length unit of the layout engine. -/
abbrev Au := Int

/-- Logical point: inline (`i`) and block (`b`) coordinates. -/
structure LogicalPoint where
  i : Au
  b : Au
deriving DecidableEq

/-- Logical size: inline and block extents. -/
structure LogicalSize where
  inline : Au
  block : Au
deriving DecidableEq

/-- Logical rectangle, as used for fragment border boxes and float bands. -/
structure LogicalRect where
  start : LogicalPoint
  size : LogicalSize
deriving DecidableEq

/-- Physical point. -/
structure Point2D where
  x : Au
  y : Au
deriving DecidableEq

/-- Physical size. -/
structure Size2D where
  width : Au
  height : Au
deriving DecidableEq

/-- Physical rectangle. -/
structure Rect where
  origin : Point2D
  size : Size2D
deriving DecidableEq

/-- Modelled from the spec: the writing mode of `style::logical_geometry`
(external to the excerpt) is only consumed here through
`LogicalSize::to_physical`, so it is reduced to its horizontal/vertical axis
choice. -/
inductive WritingMode where
  | horizontal
  | vertical
deriving DecidableEq

/-- Modelled from the spec: `LogicalSize::to_physical` of the external logical
geometry library maps inline/block extents to physical width/height according
to the writing mode. -/
def LogicalSize.to_physical (s : LogicalSize) (mode : WritingMode) : Size2D :=
  match mode with
  | .horizontal => { width := s.inline, height := s.block }
  | .vertical => { width := s.block, height := s.inline }

/-- Modelled from the spec: the rectangle union of the external geometry
library — the smallest rectangle enclosing both operands, with a degenerate
zero-sized rectangle acting as an identity. -/
def Rect.union (a b : Rect) : Rect :=
  if a.size = { width := 0, height := 0 } then b
  else if b.size = { width := 0, height := 0 } then a
  else
    let x0 := min a.origin.x b.origin.x
    let y0 := min a.origin.y b.origin.y
    let x1 := max (a.origin.x + a.size.width) (b.origin.x + b.size.width)
    let y1 := max (a.origin.y + a.size.height) (b.origin.y + b.size.height)
    { origin := { x := x0, y := y0 }, size := { width := x1 - x0, height := y1 - y0 } }

/-- Modelled from the spec: the `Overflow` record of `fragment.rs` (external),
a pair of scrollable and paint overflow rectangles. -/
structure Overflow where
  scroll : Rect
  paint : Rect
deriving DecidableEq

/-- Modelled from the spec: `Overflow::union` of `fragment.rs` (external)
unions the scroll and paint rectangles componentwise. -/
def Overflow.union (self other : Overflow) : Overflow :=
  { scroll := self.scroll.union other.scroll, paint := self.paint.union other.paint }

/-- Modelled from the spec: the computed `list-style-type` keyword enumeration
of the style system (external to the excerpt).  The first six variants are the
ones named by the source match arms; the rest are the counter styles the
engine's generated-content subsystem supports. -/
inductive ListStyleType where
  | none
  | disc
  | circle
  | square
  | disclosureOpen
  | disclosureClosed
  | decimal
  | arabicIndic
  | bengali
  | cambodian
  | cjkDecimal
  | devanagari
  | gujarati
  | gurmukhi
  | kannada
  | khmer
  | lao
  | malayalam
  | mongolian
  | myanmar
  | oriya
  | persian
  | telugu
  | thai
  | tibetan
  | cjkEarthlyBranch
  | cjkHeavenlyStem
  | lowerAlpha
  | lowerGreek
  | lowerRoman
  | upperAlpha
  | upperRoman
  | hiragana
  | hiraganaIroha
  | katakana
  | katakanaIroha
deriving DecidableEq

/-- Modelled from the spec: the slice of `ComputedValues` (style system,
external) that the excerpt reads — `style.get_list().list_style_type` and the
style's used line-height resolved to app units. -/
structure ComputedValues where
  list_style_type : ListStyleType
  line_height : Au
deriving DecidableEq

/-- A positioned content box with a style, see `fragment.rs` (external); only
the fields the excerpt touches are embedded. -/
structure Fragment where
  style : ComputedValues
  border_box : LogicalRect
deriving DecidableEq

instance : Inhabited Fragment :=
  ⟨{ style := { list_style_type := ListStyleType.disc, line_height := 0 },
     border_box := { start := { i := 0, b := 0 }, size := { inline := 0, block := 0 } } }⟩

/-- Modelled from the spec: of the restyle-damage bitflags only
`RESOLVE_GENERATED_CONTENT` is read or written by this excerpt. -/
structure RestyleDamage where
  resolve_generated_content : Bool
deriving DecidableEq

/-- Float kinds, see `floats.rs` (external). -/
inductive FloatKind where
  | left
  | right
deriving DecidableEq

/-- Content intrinsic inline sizes, see `fragment.rs` (external). -/
structure IntrinsicISizes where
  minimum_inline_size : Au
  preferred_inline_size : Au
deriving DecidableEq

/-- Intrinsic inline-size contribution of a fragment, see `fragment.rs`
(external); only the content part is consumed by the excerpt. -/
structure IntrinsicISizesContribution where
  content_intrinsic_sizes : IntrinsicISizes
deriving DecidableEq

/-- Shared line metrics, see `inline.rs` (external). -/
structure LineMetrics where
  space_above_baseline : Au
  space_below_baseline : Au
deriving DecidableEq

/-- Per-fragment inline metrics, see `fragment.rs` (external); the excerpt
only reads the ascent. -/
structure InlineMetrics where
  ascent : Au
deriving DecidableEq

/-- Early absolute-position information of a base flow (external); the excerpt
reads the relative containing-block size. -/
structure EarlyAbsolutePositionInfo where
  relative_containing_block_size : LogicalSize
deriving DecidableEq

/-- Modelled from the spec: the `Floats` state of the float subsystem
(external) is consumed only through its
`available_rect(block_start, block_size, max_inline_size)` query, so it is
embedded as that query function. -/
abbrev Floats := Au → Au → Au → Option LogicalRect

/-- Data common to all flows (`BaseFlow`, external); only the fields the
excerpt reads or writes are embedded. -/
structure FlowBase where
  restyle_damage : RestyleDamage
  position : LogicalRect
  block_container_inline_size : Au
  block_container_explicit_block_size : Option Au
  floats : Floats
  early_absolute_position_info : EarlyAbsolutePositionInfo
  writing_mode : WritingMode
  intrinsic_inline_sizes : IntrinsicISizes
  clip : Rect
  float_kind : Option FloatKind

/-- The underlying block flow (`block.rs`, external): base data plus the
block's own fragment. -/
structure BlockFlow where
  base : FlowBase
  fragment : Fragment

/-- Modelled from the spec: `BlockFlow::explicit_block_containing_size`
(`block.rs`, external) resolves the explicit block-size of the containing
block, recorded on the base flow during the top-down pass; it does not consult
the float state. -/
def BlockFlow.explicit_block_containing_size (bf : BlockFlow) : Option Au :=
  bf.base.block_container_explicit_block_size

/-- A block with the CSS `display` property equal to `list-item`
(`list_item.rs` lines 36–42). -/
structure ListItemFlow where
  block_flow : BlockFlow
  marker_fragments : List Fragment

/-- Tag consumed by the generated-content subsystem, see `fragment.rs`
(external). -/
inductive GeneratedContentInfo where
  | ListItem
  | Empty
deriving DecidableEq

/-- The kind of content that `list-style-type` results in
(`list_item.rs` lines 299–303). -/
inductive ListStyleTypeContent where
  | None
  | StaticText (glyph : Char)
  | GeneratedContent (info : GeneratedContentInfo)
deriving DecidableEq

/-- Modelled from the spec: `generated_content::static_representation`
(external to the excerpt) maps each of the five glyph keywords to its fixed
marker glyph.  The classifier never applies it to any other keyword; the
catch-all branch here is unreachable from the embedded code. -/
def static_representation (list_style_type : ListStyleType) : Char :=
  match list_style_type with
  | .disc => '•'
  | .circle => '◦'
  | .square => '▪'
  | .disclosureOpen => '▾'
  | .disclosureClosed => '▸'
  | _ => '\x00'

/-- Returns the content to be used for the given value of the
`list-style-type` property (`list_item.rs` lines 307–322). -/
def ListStyleTypeContent.from_list_style_type
    (list_style_type : ListStyleType) : ListStyleTypeContent :=
  match list_style_type with
  | .none => ListStyleTypeContent.None
  | .disc | .circle | .square | .disclosureOpen | .disclosureClosed =>
      ListStyleTypeContent.StaticText (static_representation list_style_type)
  | _ => ListStyleTypeContent.GeneratedContent GeneratedContentInfo.ListItem

/-- Modelled from the spec: `BlockFlow::from_fragment_and_float_kind` lives in
`block.rs`, outside the excerpt.  Per the spec's data model the
`RESOLVE_GENERATED_CONTENT` damage bit is raised only by the list-item
constructor, so a freshly constructed block flow carries the bit clear;
geometry starts at zero and the float kind is recorded in the base. -/
def BlockFlow.from_fragment_and_float_kind
    (fragment : Fragment) (float_kind : Option FloatKind) : BlockFlow :=
  { base :=
      { restyle_damage := { resolve_generated_content := false }
        position := { start := { i := 0, b := 0 }, size := { inline := 0, block := 0 } }
        block_container_inline_size := 0
        block_container_explicit_block_size := Option.none
        floats := fun _ _ _ => Option.none
        early_absolute_position_info :=
          { relative_containing_block_size := { inline := 0, block := 0 } }
        writing_mode := WritingMode.horizontal
        intrinsic_inline_sizes := { minimum_inline_size := 0, preferred_inline_size := 0 }
        clip := { origin := { x := 0, y := 0 }, size := { width := 0, height := 0 } }
        float_kind := float_kind }
    fragment := fragment }

/-- Constructor of a list-item flow (`list_item.rs` lines 45–72): build the
underlying block flow, then, when the first marker fragment's
`list-style-type` falls outside the static set, insert the
`RESOLVE_GENERATED_CONTENT` restyle-damage bit. -/
def ListItemFlow.from_fragments_and_flotation
    (main_fragment : Fragment) (marker_fragments : List Fragment)
    (flotation : Option FloatKind) : ListItemFlow :=
  let this : ListItemFlow :=
    { block_flow := BlockFlow.from_fragment_and_float_kind main_fragment flotation
      marker_fragments := marker_fragments }
  match this.marker_fragments.head? with
  | Option.some marker =>
      match marker.style.list_style_type with
      | .disc | .none | .circle | .square | .disclosureOpen | .disclosureClosed => this
      | _ =>
          { this with
            block_flow :=
              { this.block_flow with
                base :=
                  { this.block_flow.base with
                    restyle_damage := { resolve_generated_content := true } } } }
  | Option.none => this

/-- Modelled from the spec: the display-list subsystem is external; per the
spec each marker fragment contributes one independent (non-grouped) paint
item, and block painting contributes whatever items the delegated block
builder emits (abstracted by a tag). -/
inductive DisplayItem where
  | markerItem (fragment : Fragment) (stacking_relative_border_box : Rect)
  | blockItem (tag : Nat)

/-- Black-box operations of the external collaborators, as the spec's system
overview lists them: the generic block-layout algorithm (`block.rs`), fragment
sizing/metrics/overflow (`fragment.rs`), joint line metrics (`inline.rs`), and
the display-list subsystem.  The excerpt only invokes them; their behaviour is
left abstract. -/
structure Ops where
  block_bubble_inline_sizes : BlockFlow → BlockFlow
  assign_replaced_inline_size_if_necessary : Fragment → Au → Option Au → Fragment
  compute_intrinsic_inline_sizes : Fragment → IntrinsicISizesContribution
  assign_replaced_block_size_if_necessary : Fragment → Fragment
  minimum_line_metrics_for_fragments : List Fragment → ComputedValues → LineMetrics
  aligned_inline_metrics : Fragment → LineMetrics → Option LineMetrics → InlineMetrics
  block_compute_overflow : BlockFlow → Overflow
  fragment_compute_overflow : Fragment → Size2D → LogicalSize → Overflow
  block_display_items : BlockFlow → List DisplayItem
  stacking_relative_border_box_for_display_list : FlowBase → Fragment → Rect

/-- Body of one iteration of the marker loop of `assign_marker_inline_sizes`
(`list_item.rs` lines 94–112): resolve replaced inline size, compute the
preferred intrinsic inline size, store it as the marker's inline extent,
decrement the cursor by it and place the marker's inline-start there. -/
def placeOneMarker (ops : Ops) (bf : BlockFlow) (cursor : Au) (marker : Fragment) :
    Au × Fragment :=
  let container_block_size := bf.explicit_block_containing_size
  let marker := ops.assign_replaced_inline_size_if_necessary marker
    bf.base.block_container_inline_size container_block_size
  let intrinsic_inline_sizes := ops.compute_intrinsic_inline_sizes marker
  let marker :=
    { marker with
      border_box.size.inline :=
        intrinsic_inline_sizes.content_intrinsic_sizes.preferred_inline_size }
  let cursor := cursor - marker.border_box.size.inline
  (cursor, { marker with border_box.start.i := cursor })

/-- The marker loop of `assign_marker_inline_sizes` iterates the stored marker
list in reverse (`iter_mut().rev()`), threading the inline cursor; the stored
order of the list is preserved.  Returns the final cursor and the repositioned
markers. -/
def placeMarkersFromEnd (ops : Ops) (bf : BlockFlow) (cursor : Au) :
    List Fragment → Au × List Fragment
  | [] => (cursor, [])
  | marker :: rest =>
      let r := placeMarkersFromEnd ops bf cursor rest
      let p := placeOneMarker ops bf r.1 marker
      (p.1, p.2 :: r.2)

/-- Assign inline size and position for the markers
(`list_item.rs` lines 82–113): query the float band with the block's position
and container inline-size, start the cursor at the inline-start edge of the
available rectangle (falling back to the block's own border box), and place
the markers from the end of the stored list. -/
def ListItemFlow.assign_marker_inline_sizes (ops : Ops) (f : ListItemFlow) : ListItemFlow :=
  let base := f.block_flow.base
  let available_rect := base.floats (-(base.position.size.block)) base.position.size.block
    base.block_container_inline_size
  let marker_inline_start := (available_rect.getD f.block_flow.fragment.border_box).start.i
  { f with
    marker_fragments :=
      (placeMarkersFromEnd ops f.block_flow marker_inline_start f.marker_fragments).2 }

/-- Assign block positions for the markers (`list_item.rs` lines 115–135):
compute shared line metrics over all marker fragments against the block's own
style, then give each marker the block-start offset
`space_above_baseline - own aligned ascent`. -/
def ListItemFlow.assign_marker_block_sizes (ops : Ops) (f : ListItemFlow) : ListItemFlow :=
  let marker_line_metrics :=
    ops.minimum_line_metrics_for_fragments f.marker_fragments f.block_flow.fragment.style
  { f with
    marker_fragments := f.marker_fragments.map fun marker =>
      let marker := ops.assign_replaced_block_size_if_necessary marker
      let marker_inline_metrics :=
        ops.aligned_inline_metrics marker marker_line_metrics (Option.some marker_line_metrics)
      { marker with
        border_box.start.b :=
          marker_line_metrics.space_above_baseline - marker_inline_metrics.ascent } }

/-- Intrinsic-size bubbling of a list-item flow (`list_item.rs` lines
151–154): the marker contributes no intrinsic inline-size, so the operation
delegates to the block flow. -/
def ListItemFlow.bubble_inline_sizes (ops : Ops) (f : ListItemFlow) : ListItemFlow :=
  { f with block_flow := ops.block_bubble_inline_sizes f.block_flow }

/-- Overflow computation of a list-item flow (`list_item.rs` lines 223–241):
delegate to the block flow, then union in each marker fragment's own overflow,
computed against the block's physical size and relative containing-block
size. -/
def ListItemFlow.compute_overflow (ops : Ops) (f : ListItemFlow) : Overflow :=
  let overflow := ops.block_compute_overflow f.block_flow
  let flow_size := f.block_flow.base.position.size.to_physical f.block_flow.base.writing_mode
  let relative_containing_block_size :=
    f.block_flow.base.early_absolute_position_info.relative_containing_block_size
  f.marker_fragments.foldl
    (fun acc fragment =>
      acc.union (ops.fragment_compute_overflow fragment flow_size
        relative_containing_block_size))
    overflow

/-- Display-list building of a list-item flow (`list_item.rs` lines 193–213):
draw each marker (one independent paint item per marker fragment, at its
stacking-relative border box), then delegate painting of the block. -/
def ListItemFlow.build_display_list (ops : Ops) (f : ListItemFlow)
    (state : List DisplayItem) : List DisplayItem :=
  let state := f.marker_fragments.foldl
    (fun st marker =>
      st ++ [DisplayItem.markerItem marker
        (ops.stacking_relative_border_box_for_display_list f.block_flow.base marker)])
    state
  state ++ ops.block_display_items f.block_flow

/-- The fixed glyph keyword set named by the spec, matching the static match
arms of the classifier (`list_item.rs` lines 312–316). -/
def glyphKeywords : List ListStyleType :=
  [ListStyleType.disc, ListStyleType.circle, ListStyleType.square,
   ListStyleType.disclosureOpen, ListStyleType.disclosureClosed]

/-- Replace the float state the list-item flow will query, leaving everything
else untouched; used to express which float-band arguments the marker
positioning depends on. -/
def ListItemFlow.withFloats (f : ListItemFlow) (q : Floats) : ListItemFlow :=
  { f with block_flow := { f.block_flow with base := { f.block_flow.base with floats := q } } }

/-- The inline-end edge of a fragment's border box. -/
def Fragment.inlineEnd (fragment : Fragment) : Au :=
  fragment.border_box.start.i + fragment.border_box.size.inline

/-- Two fragments abut along the inline axis: the first ends where the second
starts. -/
def abuts (a b : Fragment) : Prop :=
  a.inlineEnd = b.border_box.start.i

/-- A marker's own aligned ascent relative to the shared line metrics, as the
block-positioning pass computes it for the marker at index `i`
(`list_item.rs` lines 125–133). -/
def markerAscent (ops : Ops) (f : ListItemFlow) (i : Nat) : Au :=
  let marker_line_metrics :=
    ops.minimum_line_metrics_for_fragments f.marker_fragments f.block_flow.fragment.style
  (ops.aligned_inline_metrics
    (ops.assign_replaced_block_size_if_necessary (f.marker_fragments.getD i default))
    marker_line_metrics (Option.some marker_line_metrics)).ascent

/-- Claim C4 as stated by the spec: whenever the float-band query returns a
rectangle, the rightmost marker's inline-end edge equals the rectangle's
inline-END edge `x0 + w`, consecutive markers abut, and the final cursor
equals `x0 + w` minus the sum of the marker inline sizes. -/
def markersFlushWithBandInlineEnd : Prop :=
  ∀ (ops : Ops) (f : ListItemFlow) (r : LogicalRect),
    f.block_flow.base.floats (-(f.block_flow.base.position.size.block))
        f.block_flow.base.position.size.block
        f.block_flow.base.block_container_inline_size = Option.some r →
    (∀ m, ((f.assign_marker_inline_sizes ops).marker_fragments).getLast? = Option.some m →
        m.inlineEnd = r.start.i + r.size.inline) ∧
    List.Chain' abuts (f.assign_marker_inline_sizes ops).marker_fragments ∧
    (placeMarkersFromEnd ops f.block_flow r.start.i f.marker_fragments).1 =
      r.start.i + r.size.inline -
        (((f.assign_marker_inline_sizes ops).marker_fragments).map
          fun m => m.border_box.size.inline).sum

/-- Claim C5 as stated by the spec: the float-band query issued during marker
inline positioning spans from one line-height above the owning block's
block-axis start to one line-height below it (with the block's container
inline-size as the width argument), so the positioning result may depend on
the float state only through the query's value on that line-height band —
under either reading of the band arguments (height `lh` or height `2·lh`). -/
def queryUsesLineHeightBand : Prop :=
  ∀ (ops : Ops) (f : ListItemFlow) (q q' : Floats),
    q (-(f.block_flow.fragment.style.line_height)) f.block_flow.fragment.style.line_height
        f.block_flow.base.block_container_inline_size =
      q' (-(f.block_flow.fragment.style.line_height)) f.block_flow.fragment.style.line_height
        f.block_flow.base.block_container_inline_size →
    q (-(f.block_flow.fragment.style.line_height))
        (2 * f.block_flow.fragment.style.line_height)
        f.block_flow.base.block_container_inline_size =
      q' (-(f.block_flow.fragment.style.line_height))
        (2 * f.block_flow.fragment.style.line_height)
        f.block_flow.base.block_container_inline_size →
    ((f.withFloats q).assign_marker_inline_sizes ops).marker_fragments =
      ((f.withFloats q').assign_marker_inline_sizes ops).marker_fragments

/-- Concrete style used by the sample flows: a counter-style keyword and a
used line-height of 2 app units. -/
def sampleStyle : ComputedValues :=
  { list_style_type := ListStyleType.decimal, line_height := 2 }

/-- Concrete marker fragment of inline extent 3 and block extent 4. -/
def sampleMarker : Fragment :=
  { style := sampleStyle
    border_box := { start := { i := 0, b := 0 }, size := { inline := 3, block := 4 } } }

/-- Second concrete marker fragment, with a different block extent. -/
def sampleMarker2 : Fragment :=
  { style := sampleStyle
    border_box := { start := { i := 0, b := 0 }, size := { inline := 2, block := 9 } } }

/-- Concrete collaborator operations for the sample flows: intrinsic inline
sizes read the fragment's stored inline extent, line metrics read the block
style's line height, and the aligned ascent reads the fragment's block
extent. -/
def sampleOps : Ops :=
  { block_bubble_inline_sizes := id
    assign_replaced_inline_size_if_necessary := fun m _ _ => m
    compute_intrinsic_inline_sizes := fun m =>
      { content_intrinsic_sizes :=
          { minimum_inline_size := m.border_box.size.inline
            preferred_inline_size := m.border_box.size.inline } }
    assign_replaced_block_size_if_necessary := fun m => m
    minimum_line_metrics_for_fragments := fun _ s =>
      { space_above_baseline := s.line_height, space_below_baseline := 0 }
    aligned_inline_metrics := fun m _ _ => { ascent := m.border_box.size.block }
    block_compute_overflow := fun _ =>
      { scroll := { origin := { x := 0, y := 0 }, size := { width := 0, height := 0 } }
        paint := { origin := { x := 0, y := 0 }, size := { width := 0, height := 0 } } }
    fragment_compute_overflow := fun _ _ _ =>
      { scroll := { origin := { x := 0, y := 0 }, size := { width := 0, height := 0 } }
        paint := { origin := { x := 0, y := 0 }, size := { width := 0, height := 0 } } }
    block_display_items := fun _ => []
    stacking_relative_border_box_for_display_list := fun _ m =>
      { origin := { x := 0, y := 0 }
        size := { width := m.border_box.size.inline, height := m.border_box.size.block } } }

/-- Base-flow data shared by the sample flows: block size 5, container
inline-size 100, and the given float-query behaviour. -/
def sampleBase (q : Floats) : FlowBase :=
  { restyle_damage := { resolve_generated_content := false }
    position := { start := { i := 0, b := 0 }, size := { inline := 40, block := 5 } }
    block_container_inline_size := 100
    block_container_explicit_block_size := Option.none
    floats := q
    early_absolute_position_info :=
      { relative_containing_block_size := { inline := 0, block := 0 } }
    writing_mode := WritingMode.horizontal
    intrinsic_inline_sizes := { minimum_inline_size := 0, preferred_inline_size := 0 }
    clip := { origin := { x := 0, y := 0 }, size := { width := 0, height := 0 } }
    float_kind := Option.none }

/-- The rectangle the sample float query hands back: inline-start 10, inline
extent 5. -/
def sampleRect : LogicalRect :=
  { start := { i := 10, b := 0 }, size := { inline := 5, block := 3 } }

/-- The block's own fragment in the sample flows; its border box starts at
inline coordinate 0. -/
def sampleBlockFragment : Fragment :=
  { style := sampleStyle
    border_box := { start := { i := 0, b := 0 }, size := { inline := 40, block := 5 } } }

/-- Sample list-item flow whose float query always finds `sampleRect`. -/
def sampleFlowHit : ListItemFlow :=
  { block_flow :=
      { base := sampleBase fun _ _ _ => Option.some sampleRect
        fragment := sampleBlockFragment }
    marker_fragments := [sampleMarker] }

/-- Sample list-item flow whose float query never finds a rectangle. -/
def sampleFlowMiss : ListItemFlow :=
  { block_flow :=
      { base := sampleBase fun _ _ _ => Option.none
        fragment := sampleBlockFragment }
    marker_fragments := [sampleMarker] }

/-- Sample list-item flow with two markers of differing ascents, for the
shared-baseline property. -/
def sampleFlowTwoMarkers : ListItemFlow :=
  { block_flow :=
      { base := sampleBase fun _ _ _ => Option.none
        fragment := sampleBlockFragment }
    marker_fragments := [sampleMarker, sampleMarker2] }

/-- Float query that answers only the band actually asked for by the code
(block-start argument −5, the negated sample block size) and stays silent on
every other band, in particular on the line-height bands. -/
def sampleQueryBlockBandOnly : Floats :=
  fun block_start _ _ => if block_start = -5 then Option.some sampleRect else Option.none

/-- Float query that never finds a rectangle. -/
def sampleQueryEmpty : Floats :=
  fun _ _ _ => Option.none

/-- Float query that answers only a band far from any band the code or the
spec mentions; it agrees with `sampleQueryEmpty` on the band the code actually
queries for the sample flows. -/
def sampleQueryOffBand : Floats :=
  fun block_start _ _ => if block_start = 1 then Option.some sampleRect else Option.none

/-! Helper lemmas about the marker placement recursion. -/

theorem placeMarkersFromEnd_nil (ops : Ops) (bf : BlockFlow) (c : Au) :
    placeMarkersFromEnd ops bf c [] = (c, []) := rfl

theorem placeMarkersFromEnd_cons (ops : Ops) (bf : BlockFlow) (c : Au) (m : Fragment)
    (ms : List Fragment) :
    placeMarkersFromEnd ops bf c (m :: ms) =
      ((placeOneMarker ops bf (placeMarkersFromEnd ops bf c ms).1 m).1,
        (placeOneMarker ops bf (placeMarkersFromEnd ops bf c ms).1 m).2 ::
          (placeMarkersFromEnd ops bf c ms).2) := rfl

theorem placeMarkersFromEnd_cursor_cons (ops : Ops) (bf : BlockFlow) (c : Au) (m : Fragment)
    (ms : List Fragment) :
    (placeMarkersFromEnd ops bf c (m :: ms)).1 =
      (placeOneMarker ops bf (placeMarkersFromEnd ops bf c ms).1 m).1 := rfl

theorem placeMarkersFromEnd_markers_cons (ops : Ops) (bf : BlockFlow) (c : Au) (m : Fragment)
    (ms : List Fragment) :
    (placeMarkersFromEnd ops bf c (m :: ms)).2 =
      (placeOneMarker ops bf (placeMarkersFromEnd ops bf c ms).1 m).2 ::
        (placeMarkersFromEnd ops bf c ms).2 := rfl

theorem placeOneMarker_start (ops : Ops) (bf : BlockFlow) (c : Au) (m : Fragment) :
    ((placeOneMarker ops bf c m).2).border_box.start.i = (placeOneMarker ops bf c m).1 := rfl

theorem placeOneMarker_fst (ops : Ops) (bf : BlockFlow) (c : Au) (m : Fragment) :
    (placeOneMarker ops bf c m).1 =
      c - ((placeOneMarker ops bf c m).2).border_box.size.inline := rfl

theorem placeOneMarker_inlineEnd (ops : Ops) (bf : BlockFlow) (c : Au) (m : Fragment) :
    ((placeOneMarker ops bf c m).2).inlineEnd = c := by
  unfold Fragment.inlineEnd
  rw [placeOneMarker_start, placeOneMarker_fst]
  ring

theorem placeMarkersFromEnd_fst (ops : Ops) (bf : BlockFlow) :
    ∀ (ms : List Fragment) (c : Au),
      (placeMarkersFromEnd ops bf c ms).1 =
        c - (((placeMarkersFromEnd ops bf c ms).2).map fun m => m.border_box.size.inline).sum := by
  intro ms
  induction ms with
  | nil => intro c; simp [placeMarkersFromEnd_nil]
  | cons m rest ih =>
      intro c
      rw [placeMarkersFromEnd_cursor_cons, placeMarkersFromEnd_markers_cons]
      have h := placeOneMarker_fst ops bf (placeMarkersFromEnd ops bf c rest).1 m
      have hrest := ih c
      simp only [List.map_cons, List.sum_cons]
      linarith

theorem placeMarkersFromEnd_head (ops : Ops) (bf : BlockFlow) (c : Au) (ms : List Fragment)
    (m : Fragment) (h : ((placeMarkersFromEnd ops bf c ms).2).head? = Option.some m) :
    m.border_box.start.i = (placeMarkersFromEnd ops bf c ms).1 := by
  cases ms with
  | nil => simp [placeMarkersFromEnd_nil] at h
  | cons m0 rest =>
      rw [placeMarkersFromEnd_cons] at h ⊢
      simp only [List.head?_cons, Option.some.injEq] at h
      rw [← h]
      exact placeOneMarker_start ops bf _ m0

theorem placeMarkersFromEnd_last (ops : Ops) (bf : BlockFlow) :
    ∀ (ms : List Fragment) (c : Au) (m : Fragment),
      ((placeMarkersFromEnd ops bf c ms).2).getLast? = Option.some m →
      m.inlineEnd = c := by
  intro ms
  induction ms with
  | nil => intro c m h; simp [placeMarkersFromEnd_nil] at h
  | cons m0 rest ih =>
      intro c m h
      rw [placeMarkersFromEnd_markers_cons] at h
      cases hr : rest with
      | nil =>
          subst hr
          rw [placeMarkersFromEnd_nil] at h
          simp only [List.getLast?_singleton, Option.some.injEq] at h
          rw [← h]
          exact placeOneMarker_inlineEnd ops bf _ m0
      | cons m1 rest' =>
          subst hr
          rw [placeMarkersFromEnd_markers_cons ops bf c m1 rest', List.getLast?_cons_cons,
            ← placeMarkersFromEnd_markers_cons ops bf c m1 rest'] at h
          exact ih c m h

theorem placeMarkersFromEnd_chain (ops : Ops) (bf : BlockFlow) :
    ∀ (ms : List Fragment) (c : Au),
      List.Chain' abuts ((placeMarkersFromEnd ops bf c ms).2) := by
  intro ms
  induction ms with
  | nil => intro c; simp [placeMarkersFromEnd_nil]
  | cons m rest ih =>
      intro c
      rw [placeMarkersFromEnd_cons]
      refine List.chain'_cons'.mpr ⟨?_, ih c⟩
      intro b hb
      have hstart := placeMarkersFromEnd_head ops bf c rest b hb
      unfold abuts
      rw [placeOneMarker_inlineEnd, hstart]

theorem placeOneMarker_congr (ops : Ops) (bf bf' : BlockFlow)
    (h1 : bf.base.block_container_explicit_block_size =
      bf'.base.block_container_explicit_block_size)
    (h2 : bf.base.block_container_inline_size = bf'.base.block_container_inline_size)
    (c : Au) (m : Fragment) :
    placeOneMarker ops bf c m = placeOneMarker ops bf' c m := by
  simp only [placeOneMarker, BlockFlow.explicit_block_containing_size, h1, h2]

theorem placeMarkersFromEnd_congr (ops : Ops) (bf bf' : BlockFlow)
    (h1 : bf.base.block_container_explicit_block_size =
      bf'.base.block_container_explicit_block_size)
    (h2 : bf.base.block_container_inline_size = bf'.base.block_container_inline_size) :
    ∀ (ms : List Fragment) (c : Au),
      placeMarkersFromEnd ops bf c ms = placeMarkersFromEnd ops bf' c ms := by
  intro ms
  induction ms with
  | nil => intro c; rfl
  | cons m rest ih =>
      intro c
      rw [placeMarkersFromEnd_cons, placeMarkersFromEnd_cons, ih,
        placeOneMarker_congr ops bf bf' h1 h2]

theorem assign_withFloats_markers (ops : Ops) (f : ListItemFlow) (q : Floats) :
    ((f.withFloats q).assign_marker_inline_sizes ops).marker_fragments =
      (placeMarkersFromEnd ops f.block_flow
        ((q (-(f.block_flow.base.position.size.block))
            f.block_flow.base.position.size.block
            f.block_flow.base.block_container_inline_size).getD
          f.block_flow.fragment.border_box).start.i f.marker_fragments).2 := by
  simp only [ListItemFlow.assign_marker_inline_sizes, ListItemFlow.withFloats]
  exact congrArg Prod.snd
    (placeMarkersFromEnd_congr ops
      { base := { f.block_flow.base with floats := q }, fragment := f.block_flow.fragment }
      f.block_flow rfl rfl f.marker_fragments _)

theorem foldl_append_singleton {α β : Type} (g : β → α) :
    ∀ (l : List β) (st : List α),
      l.foldl (fun acc x => acc ++ [g x]) st = st ++ l.map g := by
  intro l
  induction l with
  | nil => intro st; simp
  | cons x xs ih => intro st; simp [ih]

/-- C1: for every value of `list-style-type`, `from_list_style_type` returns
`None` for the keyword `none`, `StaticText` carrying the fixed glyph for each
of the keywords disc, circle, square, disclosure-open and disclosure-closed,
and `GeneratedContent(ListItem)` for every other keyword. -/
theorem from_list_style_type_classification (t : ListStyleType) :
    ListStyleTypeContent.from_list_style_type t =
      if t = ListStyleType.none then ListStyleTypeContent.None
      else if t ∈ glyphKeywords then
        ListStyleTypeContent.StaticText (static_representation t)
      else ListStyleTypeContent.GeneratedContent GeneratedContentInfo.ListItem := by
  cases t <;> rfl

/-- C2: at node construction, the RESOLVE_GENERATED_CONTENT restyle-damage bit
is raised if and only if a first marker fragment exists and its
`list-style-type` is outside the fixed glyph set and is not `none`; for every
value inside that set, and for `none`, the bit is never set. -/
theorem from_fragments_and_flotation_damage_iff (main_fragment : Fragment)
    (marker_fragments : List Fragment) (flotation : Option FloatKind) :
    (ListItemFlow.from_fragments_and_flotation main_fragment marker_fragments
        flotation).block_flow.base.restyle_damage.resolve_generated_content = true ↔
      ∃ m, marker_fragments.head? = Option.some m ∧
        m.style.list_style_type ∉ glyphKeywords ∧
        m.style.list_style_type ≠ ListStyleType.none := by
  cases marker_fragments with
  | nil =>
      simp [ListItemFlow.from_fragments_and_flotation, BlockFlow.from_fragment_and_float_kind]
  | cons m rest =>
      cases hls : m.style.list_style_type <;>
        simp [ListItemFlow.from_fragments_and_flotation,
          BlockFlow.from_fragment_and_float_kind, glyphKeywords, hls]

/-- C10: the RESOLVE_GENERATED_CONTENT decision at construction consults only
the first marker fragment's style: with no markers the bit is never inserted,
and the markers after the first never influence the bit. -/
theorem damage_depends_only_on_first_marker (main_fragment : Fragment)
    (flotation : Option FloatKind) (m : Fragment) (rest rest' : List Fragment) :
    (ListItemFlow.from_fragments_and_flotation main_fragment []
        flotation).block_flow.base.restyle_damage.resolve_generated_content = false ∧
    (ListItemFlow.from_fragments_and_flotation main_fragment (m :: rest)
        flotation).block_flow.base.restyle_damage.resolve_generated_content =
      (ListItemFlow.from_fragments_and_flotation main_fragment (m :: rest')
        flotation).block_flow.base.restyle_damage.resolve_generated_content := by
  refine ⟨rfl, ?_⟩
  cases hls : m.style.list_style_type <;>
    simp [ListItemFlow.from_fragments_and_flotation,
      BlockFlow.from_fragment_and_float_kind, hls]

/-- C3: `bubble_inline_sizes` on a list-item node is a pure delegate to the
underlying block flow: the node's block flow (in particular its reported
intrinsic inline-sizes) is exactly the delegated result, the markers are
untouched, and the result does not depend on the marker fragments. -/
theorem bubble_inline_sizes_pure_delegate (ops : Ops) (f : ListItemFlow)
    (ms : List Fragment) :
    (f.bubble_inline_sizes ops).block_flow = ops.block_bubble_inline_sizes f.block_flow ∧
    (f.bubble_inline_sizes ops).block_flow.base.intrinsic_inline_sizes =
      (ops.block_bubble_inline_sizes f.block_flow).base.intrinsic_inline_sizes ∧
    (f.bubble_inline_sizes ops).marker_fragments = f.marker_fragments ∧
    (ListItemFlow.bubble_inline_sizes ops { f with marker_fragments := ms }).block_flow =
      (f.bubble_inline_sizes ops).block_flow := by
  exact ⟨rfl, rfl, rfl, rfl⟩

/-- C8: for any number of marker fragments including zero, `compute_overflow`
on a list-item node equals the union of the delegated block overflow with each
marker fragment's own computed overflow, the latter computed against the
block's physical size and its relative containing-block size. -/
theorem compute_overflow_union_markers (ops : Ops) (f : ListItemFlow) :
    f.compute_overflow ops =
      (f.marker_fragments.map fun fragment =>
          ops.fragment_compute_overflow fragment
            (f.block_flow.base.position.size.to_physical f.block_flow.base.writing_mode)
            f.block_flow.base.early_absolute_position_info.relative_containing_block_size).foldl
        Overflow.union (ops.block_compute_overflow f.block_flow) := by
  simp [ListItemFlow.compute_overflow, List.foldl_map]

/-- C9: `build_display_list` emits exactly one independent paint item per
marker fragment, in the markers' stored insertion order, before delegating
painting of the block; with zero marker fragments the marker contribution is
the empty list. -/
theorem build_display_list_markers_first (ops : Ops) (f : ListItemFlow)
    (state : List DisplayItem) :
    f.build_display_list ops state =
      state ++
        (f.marker_fragments.map fun marker =>
          DisplayItem.markerItem marker
            (ops.stacking_relative_border_box_for_display_list f.block_flow.base marker)) ++
        ops.block_display_items f.block_flow := by
  simp [ListItemFlow.build_display_list, foldl_append_singleton]

/-- C4 (counterexample): the claim as stated — the rightmost marker's
inline-end edge flush with the returned rectangle's inline-END edge `x0 + w`
and the final cursor equal to `x0 + w` minus the marker sizes — fails on a
concrete flow: the code starts the cursor at the rectangle's inline-START
edge `x0`, so with the sample rectangle of inline-start 10 and inline extent 5
the single marker ends at 10, not 15. -/
theorem marker_inline_end_not_band_end : ¬ markersFlushWithBandInlineEnd := by
  intro h
  obtain ⟨h1, -, -⟩ := h sampleOps sampleFlowHit sampleRect rfl
  have h2 := h1
    { style := sampleStyle
      border_box := { start := { i := 7, b := 0 }, size := { inline := 3, block := 4 } } }
    (by decide)
  exact absurd h2 (by decide)

/-- C4 (amended): for every sequence of markers, when the float-band query
returns a rectangle with inline-start edge `x0`, after inline positioning the
rightmost marker's inline-end edge equals `x0` (the rectangle's inline-START
edge), each subsequent marker toward inline-start abuts the previous with no
gap, and the final cursor equals `x0` minus the sum of the markers' computed
inline sizes. -/
theorem marker_inline_positions_from_band_start (ops : Ops) (f : ListItemFlow)
    (r : LogicalRect)
    (hq : f.block_flow.base.floats (-(f.block_flow.base.position.size.block))
        f.block_flow.base.position.size.block
        f.block_flow.base.block_container_inline_size = Option.some r) :
    (∀ m, ((f.assign_marker_inline_sizes ops).marker_fragments).getLast? = Option.some m →
        m.inlineEnd = r.start.i) ∧
    List.Chain' abuts (f.assign_marker_inline_sizes ops).marker_fragments ∧
    (placeMarkersFromEnd ops f.block_flow r.start.i f.marker_fragments).1 =
      r.start.i - (((f.assign_marker_inline_sizes ops).marker_fragments).map
        fun m => m.border_box.size.inline).sum := by
  have hmk : (f.assign_marker_inline_sizes ops).marker_fragments =
      (placeMarkersFromEnd ops f.block_flow r.start.i f.marker_fragments).2 := by
    simp [ListItemFlow.assign_marker_inline_sizes, hq]
  refine ⟨?_, ?_, ?_⟩
  · intro m hm
    rw [hmk] at hm
    exact placeMarkersFromEnd_last ops f.block_flow f.marker_fragments r.start.i m hm
  · rw [hmk]
    exact placeMarkersFromEnd_chain ops f.block_flow f.marker_fragments r.start.i
  · rw [hmk]
    exact placeMarkersFromEnd_fst ops f.block_flow f.marker_fragments r.start.i

/-- C4 (witness): the amended theorem applied to the sample flow whose float
query returns the sample rectangle. -/
theorem marker_inline_positions_from_band_start_witness :
    sampleFlowHit.block_flow.base.floats
        (-(sampleFlowHit.block_flow.base.position.size.block))
        sampleFlowHit.block_flow.base.position.size.block
        sampleFlowHit.block_flow.base.block_container_inline_size =
      Option.some sampleRect ∧
    ((∀ m, ((sampleFlowHit.assign_marker_inline_sizes sampleOps).marker_fragments).getLast? =
          Option.some m → m.inlineEnd = sampleRect.start.i) ∧
      List.Chain' abuts (sampleFlowHit.assign_marker_inline_sizes sampleOps).marker_fragments ∧
      (placeMarkersFromEnd sampleOps sampleFlowHit.block_flow sampleRect.start.i
          sampleFlowHit.marker_fragments).1 =
        sampleRect.start.i -
          (((sampleFlowHit.assign_marker_inline_sizes sampleOps).marker_fragments).map
            fun m => m.border_box.size.inline).sum) :=
  ⟨rfl, marker_inline_positions_from_band_start sampleOps sampleFlowHit sampleRect rfl⟩

/-- C5 (counterexample): the claim as stated — that the float-band query spans
from one line-height above the block's block-axis start to one line-height
below it — fails on a concrete flow whose line-height (2) differs from its
block size (5): two float states that agree on the line-height bands but
differ on the band the code actually queries produce different marker
positions. -/
theorem float_band_query_not_line_height : ¬ queryUsesLineHeightBand := by
  intro h
  have hc := h sampleOps sampleFlowMiss sampleQueryBlockBandOnly sampleQueryEmpty
    (by decide) (by decide)
  exact absurd hc (by decide)

/-- C5 (amended): the float-band query issued during marker inline positioning
passes block-start argument −(the block's own block size), block-size argument
the block's own block size, and the block's container inline-size as the width
argument: the positioning result depends on the float state only through the
query's value at exactly those arguments. -/
theorem float_band_query_args_block_size (ops : Ops) (f : ListItemFlow) (q q' : Floats)
    (h : q (-(f.block_flow.base.position.size.block)) f.block_flow.base.position.size.block
        f.block_flow.base.block_container_inline_size =
      q' (-(f.block_flow.base.position.size.block)) f.block_flow.base.position.size.block
        f.block_flow.base.block_container_inline_size) :
    ((f.withFloats q).assign_marker_inline_sizes ops).marker_fragments =
      ((f.withFloats q').assign_marker_inline_sizes ops).marker_fragments := by
  rw [assign_withFloats_markers, assign_withFloats_markers, h]

/-- C5 (witness): the amended theorem applied to two concrete float states
that agree on the band the code queries. -/
theorem float_band_query_args_block_size_witness :
    sampleQueryEmpty (-(sampleFlowMiss.block_flow.base.position.size.block))
        sampleFlowMiss.block_flow.base.position.size.block
        sampleFlowMiss.block_flow.base.block_container_inline_size =
      sampleQueryOffBand (-(sampleFlowMiss.block_flow.base.position.size.block))
        sampleFlowMiss.block_flow.base.position.size.block
        sampleFlowMiss.block_flow.base.block_container_inline_size ∧
    ((sampleFlowMiss.withFloats sampleQueryEmpty).assign_marker_inline_sizes
        sampleOps).marker_fragments =
      ((sampleFlowMiss.withFloats sampleQueryOffBand).assign_marker_inline_sizes
        sampleOps).marker_fragments :=
  ⟨by decide,
    float_band_query_args_block_size sampleOps sampleFlowMiss sampleQueryEmpty
      sampleQueryOffBand (by decide)⟩

/-- C6: whenever the float-band query returns no rectangle, marker inline
positioning falls back to the owning block's own border box as the positioning
reference: the cursor starts at that border box's inline-start edge and the
markers are positioned by the same total (never-failing) placement pass. -/
theorem marker_inline_fallback_border_box (ops : Ops) (f : ListItemFlow)
    (hq : f.block_flow.base.floats (-(f.block_flow.base.position.size.block))
        f.block_flow.base.position.size.block
        f.block_flow.base.block_container_inline_size = Option.none) :
    (f.assign_marker_inline_sizes ops).marker_fragments =
      (placeMarkersFromEnd ops f.block_flow f.block_flow.fragment.border_box.start.i
        f.marker_fragments).2 := by
  simp [ListItemFlow.assign_marker_inline_sizes, hq]

/-- C6 (witness): the fallback theorem applied to the sample flow whose float
query never finds a rectangle. -/
theorem marker_inline_fallback_border_box_witness :
    sampleFlowMiss.block_flow.base.floats
        (-(sampleFlowMiss.block_flow.base.position.size.block))
        sampleFlowMiss.block_flow.base.position.size.block
        sampleFlowMiss.block_flow.base.block_container_inline_size = Option.none ∧
    (sampleFlowMiss.assign_marker_inline_sizes sampleOps).marker_fragments =
      (placeMarkersFromEnd sampleOps sampleFlowMiss.block_flow
        sampleFlowMiss.block_flow.fragment.border_box.start.i
        sampleFlowMiss.marker_fragments).2 :=
  ⟨rfl, marker_inline_fallback_border_box sampleOps sampleFlowMiss rfl⟩

/-- C7: after marker block positioning, every marker's block-start offset
equals the shared space-above-baseline minus that marker's own aligned ascent;
consequently `block-start + ascent` is equal across all markers in the
sequence (one shared visual baseline). -/
theorem marker_block_offsets_shared_baseline (ops : Ops) (f : ListItemFlow) (i j : Nat)
    (hi : i < f.marker_fragments.length) (hj : j < f.marker_fragments.length) :
    ((f.assign_marker_block_sizes ops).marker_fragments.getD i
        default).border_box.start.b =
      (ops.minimum_line_metrics_for_fragments f.marker_fragments
        f.block_flow.fragment.style).space_above_baseline - markerAscent ops f i ∧
    ((f.assign_marker_block_sizes ops).marker_fragments.getD i
          default).border_box.start.b + markerAscent ops f i =
      ((f.assign_marker_block_sizes ops).marker_fragments.getD j
          default).border_box.start.b + markerAscent ops f j := by
  have key : ∀ k, k < f.marker_fragments.length →
      ((f.assign_marker_block_sizes ops).marker_fragments.getD k
          default).border_box.start.b =
        (ops.minimum_line_metrics_for_fragments f.marker_fragments
          f.block_flow.fragment.style).space_above_baseline - markerAscent ops f k := by
    intro k hk
    simp [ListItemFlow.assign_marker_block_sizes, markerAscent,
      List.getD_eq_getElem?_getD, List.getElem?_map, List.getElem?_eq_getElem hk]
  refine ⟨key i hi, ?_⟩
  rw [key i hi, key j hj]
  ring

/-- C7 (witness): the shared-baseline theorem applied to the sample flow with
two markers of differing ascents. -/
theorem marker_block_offsets_shared_baseline_witness :
    (0 : Nat) < sampleFlowTwoMarkers.marker_fragments.length ∧
    (1 : Nat) < sampleFlowTwoMarkers.marker_fragments.length ∧
    (((sampleFlowTwoMarkers.assign_marker_block_sizes sampleOps).marker_fragments.getD 0
          default).border_box.start.b =
        (sampleOps.minimum_line_metrics_for_fragments sampleFlowTwoMarkers.marker_fragments
          sampleFlowTwoMarkers.block_flow.fragment.style).space_above_baseline -
          markerAscent sampleOps sampleFlowTwoMarkers 0 ∧
      ((sampleFlowTwoMarkers.assign_marker_block_sizes sampleOps).marker_fragments.getD 0
            default).border_box.start.b + markerAscent sampleOps sampleFlowTwoMarkers 0 =
        ((sampleFlowTwoMarkers.assign_marker_block_sizes sampleOps).marker_fragments.getD 1
            default).border_box.start.b + markerAscent sampleOps sampleFlowTwoMarkers 1) :=
  ⟨by decide, by decide,
    marker_block_offsets_shared_baseline sampleOps sampleFlowTwoMarkers 0 1
      (by decide) (by decide)⟩

end Servo
